import Mathlib

/-!
Verification of the message-to-response pipeline of a Discord relay bot
(`src/claude_code_discord_agent/main.py`).

The embedding models, faithfully to the Python source:
- Python string primitives used by the pipeline: `str.replace`, `str.strip`,
  `"\n".join(...)` (over a list and, as the source does on its final send,
  over a string), `len`, truthiness of strings;
- `json.dumps(..., indent=2, ensure_ascii=False)` restricted to flat
  string-to-string mappings, which is the shape all claims exercise;
- the configuration document as a nested Python-value tree with `[]`
  (raising) and `.get` (non-raising) lookups;
- the response-event flattening loop, the reply policy, and the
  `except*` fault boundary of `ClaudeDiscordBot.handle_mention`;
- the startup validation performed by `main`.

Exceptions are modelled with `Except String`; the string is only a label.
Awaited sends are modelled as pure accumulation of the replies sent.
-/

namespace Spec2Proof

/-- Python whitespace characters stripped by `str.strip()` (ASCII subset;
the pipeline only ever strips ASCII chat text). -/
def pyWhitespace (c : Char) : Bool :=
  c = ' ' || c = '\t' || c = '\n' || c = '\r' || c = '\x0b' || c = '\x0c'

/-- Model of Python `str.strip()`: drop whitespace from both ends. -/
def pyStrip (s : String) : String :=
  String.mk (((s.toList.dropWhile pyWhitespace).reverse.dropWhile pyWhitespace).reverse)

/-- Fuel-driven worker for `str.replace`: scan left to right, replacing each
non-overlapping occurrence of `old` by `new`.  Fuel is the length of the
scanned list, enough because every step consumes at least one character
when `old` is nonempty. -/
def replaceFuel (old new : List Char) : Nat → List Char → List Char
  | 0, s => s
  | _ + 1, [] => []
  | fuel + 1, c :: rest =>
    if old.isPrefixOf (c :: rest) then
      new ++ replaceFuel old new fuel ((c :: rest).drop old.length)
    else
      c :: replaceFuel old new fuel rest

/-- Model of Python `s.replace(old, new)` for nonempty `old` (the bot
mention token `<@id>` is never empty; for empty `old` we return `s`
unchanged, a case the pipeline never reaches). -/
def pyReplace (s old new : String) : String :=
  if old.toList = [] then s
  else String.mk (replaceFuel old.toList new.toList s.toList.length s.toList)

/-- Model of Python `"\n".join(xs)` for a list of strings. -/
def pyJoinList (xs : List String) : String :=
  String.intercalate "\n" xs

/-- Model of Python `"\n".join(s)` applied to a STRING: a string is an
iterable of its characters, so join inserts a newline between every pair of
adjacent characters.  The source applies this to an already-joined string
on its final send. -/
def pyJoinChars (s : String) : String :=
  String.intercalate "\n" (s.toList.map (fun c => String.mk [c]))

/-- Four-bit hex digit. -/
def hexDigit (n : Nat) : Char :=
  if n < 10 then Char.ofNat (48 + n) else Char.ofNat (87 + n)

/-- Four-digit lowercase hex, as `json.dumps` uses in `\u00XX` escapes. -/
def hex4 (n : Nat) : String :=
  String.mk [hexDigit (n / 4096 % 16), hexDigit (n / 256 % 16),
             hexDigit (n / 16 % 16), hexDigit (n % 16)]

/-- JSON escaping of one character under `ensure_ascii=False`: quote,
backslash and control characters are escaped, everything else (including
non-ASCII) is emitted raw. -/
def jsonEscapeChar (c : Char) : String :=
  if c = '"' then "\\\""
  else if c = '\\' then "\\\\"
  else if c = '\n' then "\\n"
  else if c = '\r' then "\\r"
  else if c = '\t' then "\\t"
  else if c = '\x08' then "\\b"
  else if c = '\x0c' then "\\f"
  else if c.toNat < 32 then "\\u" ++ hex4 c.toNat
  else String.mk [c]

/-- JSON escaping of a string body. -/
def jsonEscape (s : String) : String :=
  String.join (s.toList.map jsonEscapeChar)

/-- Model of `json.dumps(m, indent=2, ensure_ascii=False)` for a flat
string-to-string mapping, keys kept in received order: `\x7b\x7d` for the
empty mapping, otherwise one `  "k": "v"` line per entry. -/
def jsonDumps (m : List (String × String)) : String :=
  match m with
  | [] => "\x7b\x7d"
  | _ =>
    "\x7b\n"
      ++ String.intercalate ",\n"
          (m.map (fun kv => "  \"" ++ jsonEscape kv.1 ++ "\": \"" ++ jsonEscape kv.2 ++ "\""))
      ++ "\n\x7d"

/-- Python `str(...)` of an optional string, as an f-string renders the
result of `dict.get`: a missing key gives `None`, rendered `"None"`. -/
def pyStrOpt : Option String → String
  | none => "None"
  | some s => s

/-- A content block of an assistant message.  Tool-use input mappings are
restricted to string values, the shape every claim exercises.  `other`
covers the block variants the loop does not test for (ignored). -/
inductive ContentBlock where
  | text (t : String)
  | toolUse (name : String) (input : List (String × String))
  | other
deriving DecidableEq, Repr

/-- A streamed response event: an assistant message carrying content
blocks, or any other event variant (skipped by the loop). -/
inductive ResponseEvent where
  | assistantMsg (content : List ContentBlock)
  | otherEvent
deriving DecidableEq, Repr

/-- One query stream: either it terminates normally after yielding
`events`, or it yields `events` and then raises; `errs` are the exceptions
of the group reaching the `except*` boundary (a bare exception is a
one-element group). -/
inductive QueryStream where
  | done (events : List ResponseEvent)
  | failed (events : List ResponseEvent) (errs : List String)
deriving DecidableEq, Repr

/-- Flattening of one content block, from the body of the event loop:
a text block yields its text; a `Bash` tool-use yields the bolded name and
a fenced `$ command # description` line, where `command` uses a raising
`[]` lookup and `description` uses `.get` (rendering `None` when absent);
any other tool-use yields the bolded name and a fenced pretty-printed
input; other block variants yield nothing. -/
def flattenBlock : ContentBlock → Except String (List String)
  | .text t => .ok [t]
  | .toolUse name input =>
    if name = "Bash" then
      match input.lookup "command" with
      | none => .error "KeyError: command"
      | some cmd =>
        .ok ["**" ++ name ++ "**",
             "```\n$ " ++ cmd ++ " # " ++ pyStrOpt (input.lookup "description") ++ "\n```"]
    else
      .ok ["**" ++ name ++ "**", "```\n" ++ jsonDumps input ++ "\n```"]
  | .other => .ok []

/-- Flattening of the blocks of one assistant message, in order; the first
raising lookup aborts the iteration. -/
def flattenBlocks : List ContentBlock → Except String (List String)
  | [] => .ok []
  | b :: bs => do
    let f ← flattenBlock b
    let fs ← flattenBlocks bs
    pure (f ++ fs)

/-- Flattening of the event stream, in order: only assistant-message
events contribute fragments. -/
def flattenEvents : List ResponseEvent → Except String (List String)
  | [] => .ok []
  | .assistantMsg content :: evs => do
    let f ← flattenBlocks content
    let fs ← flattenEvents evs
    pure (f ++ fs)
  | .otherEvent :: evs => flattenEvents evs

/-- A Python value of the loaded YAML configuration: a string, a nested
mapping, or `None` (YAML null).  This is the shape `load_config` can
return that the pipeline then indexes into. -/
inductive PyVal where
  | str (s : String)
  | dict (entries : List (String × PyVal))
  | pyNone

/-- Python truthiness of a configuration value (`not config`). -/
def pyTruthy : PyVal → Bool
  | .str s => s != ""
  | .dict es => !es.isEmpty
  | .pyNone => false

/-- Raising `[]` lookup on a configuration value: `KeyError` on a missing
key, `TypeError` when indexing a non-mapping. -/
def dictGet (v : PyVal) (key : String) : Except String PyVal :=
  match v with
  | .dict es =>
    match es.lookup key with
    | some w => .ok w
    | none => .error ("KeyError: " ++ key)
  | _ => .error "TypeError: not subscriptable"

/-- Lookup of one message template, as `config["messages"][key]` performs
it: both indexings raise on absence, and a non-string template would fail
downstream, modelled as an error here. -/
def getTemplate (cfg : PyVal) (key : String) : Except String String := do
  let msgs ← dictGet cfg "messages"
  let v ← dictGet msgs key
  match v with
  | .str s => .ok s
  | _ => .error "TypeError: template not a string"

/-- Outcome of process startup: either the process never reaches the
message loop (early return or an uncaught lookup error in `main`), or the
bot is constructed and runs with the given configuration. -/
inductive StartupOutcome where
  | noStart
  | runsBot (cfg : PyVal)

/-- The placeholder token `main` rejects. -/
def placeholderToken : String := "your_discord_bot_token_here"

/-- Model of `main` up to the point the bot starts: a falsy or missing
configuration exits; `setup_logging` indexes `config["logging"]["level"]`
and `config["logging"]["format"]` (an absence crashes before the bot
runs); the Discord token is read with raising lookups and rejected when
falsy or equal to the placeholder; the bot constructor reads
`config["discord"]["prefix"]` with raising lookups.  No message template
is inspected anywhere on this path. -/
def mainStartup (cfg? : Option PyVal) : StartupOutcome :=
  match cfg? with
  | none => .noStart
  | some cfg =>
    if !pyTruthy cfg then .noStart
    else
      match (do
          let logging ← dictGet cfg "logging"
          let _ ← dictGet logging "level"
          let _ ← dictGet logging "format"
          let dis ← dictGet cfg "discord"
          let token ← dictGet dis "bot_token"
          let _ ← dictGet dis "prefix"
          pure token : Except String PyVal) with
      | .error _ => .noStart
      | .ok token =>
        if !pyTruthy token then .noStart
        else
          match token with
          | .str t => if t = placeholderToken then .noStart else .runsBot cfg
          | _ => .runsBot cfg

/-- Result of one run of `handle_mention`: the replies sent to the
originating message in order, whether the assistant backend query was
invoked, and whether an exception escaped the handler (which only happens
when a template lookup raises inside the `except*` body). -/
structure HandleResult where
  replies : List String
  queried : Bool
  escaped : Bool
deriving DecidableEq, Repr

/-- The `except*` fault boundary body: for each exception of the group,
log it and reply with the `general_error` template; a raising template
lookup escapes the handler, abandoning the remaining iterations. -/
def faultBoundary (cfg : PyVal) : List String → List String × Bool
  | [] => ([], false)
  | _ :: rest =>
    match getTemplate cfg "general_error" with
    | .error _ => ([], true)
    | .ok t =>
      let p := faultBoundary cfg rest
      (t :: p.1, p.2)

/-- Model of `ClaudeDiscordBot.handle_mention` for one mention-triggering
message: extract the prompt by deleting the mention token and stripping;
an empty prompt replies with `empty_message` without querying; otherwise
the stream is consumed and flattened (a raising lookup mid-flatten, or the
stream failing, reaches the fault boundary); on success the fragments are
joined with newlines and the reply policy picks the outbound reply — note
the success branch re-joins the already-joined string, as the source does
on line 131. -/
def handleMention (cfg : PyVal) (mentionTok content : String)
    (stream : QueryStream) : HandleResult :=
  let userContent := pyStrip (pyReplace content mentionTok "")
  if userContent = "" then
    match getTemplate cfg "empty_message" with
    | .ok t => ⟨[t], false, false⟩
    | .error e =>
      let p := faultBoundary cfg [e]
      ⟨p.1, false, p.2⟩
  else
    let events := match stream with
      | .done evs => evs
      | .failed evs _ => evs
    match flattenEvents events with
    | .error e =>
      let p := faultBoundary cfg [e]
      ⟨p.1, true, p.2⟩
    | .ok frags =>
      match stream with
      | .failed _ errs =>
        let p := faultBoundary cfg errs
        ⟨p.1, true, p.2⟩
      | .done _ =>
        let joined := pyJoinList frags
        let replyE : Except String String :=
          if joined ≠ "" ∧ joined.length > 4000 then
            getTemplate cfg "long_response_warning"
          else if joined.length = 0 then
            getTemplate cfg "empty_response"
          else
            .ok (pyJoinChars joined)
        match replyE with
        | .ok r => ⟨[r], true, false⟩
        | .error e =>
          let p := faultBoundary cfg [e]
          ⟨p.1, true, p.2⟩

/-- A configuration with all four message templates present, used as the
concrete instance in witnesses and counterexamples. -/
def cfgFull : PyVal := .dict [
  ("discord", .dict [("prefix", .str "!"), ("bot_token", .str "tok")]),
  ("logging", .dict [("level", .str "INFO"), ("format", .str "%(message)s")]),
  ("messages", .dict [
    ("empty_message", .str "EMPTY_MSG"),
    ("long_response_warning", .str "LONG_WARN"),
    ("empty_response", .str "EMPTY_RESP"),
    ("general_error", .str "GEN_ERR")])]

/-- A configuration that passes every startup check of `main` but has no
`messages` section at all, so all four templates are absent. -/
def cfgNoMsgs : PyVal := .dict [
  ("discord", .dict [("prefix", .str "!"), ("bot_token", .str "tok")]),
  ("logging", .dict [("level", .str "INFO"), ("format", .str "%(message)s")])]

/-- A stream whose failure, if any, delivers a single-exception group to
the `except*` boundary. -/
def singleFault : QueryStream → Prop
  | .done _ => True
  | .failed _ errs => errs.length = 1

/-- When the `general_error` template is present, the fault boundary sends
it once per exception of the group and nothing escapes. -/
theorem faultBoundary_ok (cfg : PyVal) (ge : String)
    (h : getTemplate cfg "general_error" = .ok ge) (errs : List String) :
    faultBoundary cfg errs = (List.replicate errs.length ge, false) := by
  induction errs with
  | nil => rfl
  | cons e rest ih => simp [faultBoundary, h, ih, List.replicate]

/-- Claim C6: flattening preserves event and block order — the event list
made of one assistant message with blocks text "a", Bash tool-use with
command "ls" and description "list", text "b" flattens to exactly the four
fragments in that order. -/
theorem c6_flatten_order_preserving :
    flattenEvents [.assistantMsg [.text "a",
        .toolUse "Bash" [("command", "ls"), ("description", "list")], .text "b"]]
      = .ok ["a", "**Bash**", "```\n$ ls # list\n```", "b"] := by
  rfl

/-- Claim C7: a tool-use block for a tool other than `Bash` flattens to
exactly two fragments — the bolded tool name, then a fenced code block
holding the input mapping pretty-printed with 2-space indentation and keys
in received order. -/
theorem c7_non_bash_pretty_printed (name : String) (input : List (String × String))
    (h : ¬ name = "Bash") :
    flattenBlock (.toolUse name input)
      = .ok ["**" ++ name ++ "**", "```\n" ++ jsonDumps input ++ "\n```"] := by
  simp [flattenBlock, h]

/-- Witness for C7 at the tool `Write` with input mapping
`path ↦ x.txt`, giving the exact fragments the claim lists. -/
theorem c7_witness :
    ¬ "Write" = "Bash"
    ∧ flattenBlock (.toolUse "Write" [("path", "x.txt")])
        = .ok ["**Write**", "```\n\x7b\n  \"path\": \"x.txt\"\n\x7d\n```"] := by
  refine ⟨by decide, ?_⟩
  rw [c7_non_bash_pretty_printed "Write" [("path", "x.txt")] (by decide)]
  rfl

/-- Claim C4, counterexample: for a `Bash` tool-use whose input lacks the
`description` key, the rendered fragment is "```\n$ ls # None\n```" — it
ends in "# None" and not in "# " directly followed by the fence, so the
description substitution is not the empty string. -/
theorem c4_counterexample :
    flattenBlock (.toolUse "Bash" [("command", "ls")])
      = .ok ["**Bash**", "```\n$ ls # None\n```"]
    ∧ "```\n$ ls # None\n```" ≠ "```\n$ ls # \n```" := by
  exact ⟨rfl, by decide⟩

/-- Claim C4 as amended: for a `Bash` tool-use block with a `command` key
and no `description` key, the flattener appends the bolded name and a
fenced fragment rendering the missing description as the string "None"
(the Python rendering of `dict.get` on an absent key). -/
theorem c4_bash_missing_description (input : List (String × String)) (cmd : String)
    (hc : input.lookup "command" = some cmd)
    (hd : input.lookup "description" = none) :
    flattenBlock (.toolUse "Bash" input)
      = .ok ["**Bash**", "```\n$ " ++ cmd ++ " # " ++ "None" ++ "\n```"] := by
  simp [flattenBlock, hc, hd, pyStrOpt]

/-- Witness for C4 at the input mapping `command ↦ ls`. -/
theorem c4_witness :
    List.lookup "command" [("command", "ls")] = some "ls"
    ∧ List.lookup "description" [("command", "ls")] = none
    ∧ flattenBlock (.toolUse "Bash" [("command", "ls")])
        = .ok ["**Bash**", "```\n$ ls # None\n```"] := by
  refine ⟨by decide, by decide, ?_⟩
  rw [c4_bash_missing_description [("command", "ls")] "ls" (by decide) (by decide)]
  rfl

/-- Claim C8: when deleting every occurrence of the mention token and
stripping whitespace leaves an empty prompt, the single reply is the
`empty_message` template and the backend query is never invoked, whatever
stream a query would have produced. -/
theorem c8_empty_prompt (cfg : PyVal) (em tok content : String)
    (stream : QueryStream)
    (hem : getTemplate cfg "empty_message" = .ok em)
    (h : pyStrip (pyReplace content tok "") = "") :
    handleMention cfg tok content stream = ⟨[em], false, false⟩ := by
  simp [handleMention, h, hem]

/-- Witness for C8: the message consisting of the mention token and
whitespace only. -/
theorem c8_witness :
    getTemplate cfgFull "empty_message" = .ok "EMPTY_MSG"
    ∧ pyStrip (pyReplace "<@1>  " "<@1>" "") = ""
    ∧ handleMention cfgFull "<@1>" "<@1>  " (.done [])
        = ⟨["EMPTY_MSG"], false, false⟩ := by
  refine ⟨by rfl, by rfl, ?_⟩
  exact c8_empty_prompt cfgFull "EMPTY_MSG" "<@1>" "<@1>  " (.done []) (by rfl) (by rfl)

/-- Claim C1, divergence at the failing input: for a successful query
whose fragments are `["ab"]` the joined text is "ab" with 0 < length ≤
4000, yet the outbound reply is "a\nb" — the final send re-joins the
already-joined string, inserting a newline between every pair of adjacent
characters — so the reply does not equal the joined text character for
character. -/
theorem c1_code_divergence :
    pyJoinList ["ab"] = "ab"
    ∧ (handleMention cfgFull "<@1>" "<@1> hi" (.done [.assistantMsg [.text "ab"]])).replies
        = ["a\nb"]
    ∧ "a\nb" ≠ "ab" := by
  exact ⟨rfl, rfl, by decide⟩

/-- Claim C2, counterexample: when an exception group with two exceptions
reaches the fault boundary, two `general_error` replies are sent for the
one message, refuting that exactly one is ever sent. -/
theorem c2_counterexample :
    (handleMention cfgFull "<@1>" "<@1> hi" (.failed [] ["errA", "errB"])).replies
      = ["GEN_ERR", "GEN_ERR"]
    ∧ (handleMention cfgFull "<@1>" "<@1> hi" (.failed [] ["errA", "errB"])).replies.length
        ≠ 1 := by
  exact ⟨rfl, by decide⟩

/-- Claim C2 as amended: when a query fails and an exception group reaches
the fault boundary, each exception is handled individually and one
`general_error` reply is sent per exception of the group — `n` replies for
a group of `n` exceptions, not exactly one. -/
theorem c2_one_reply_per_exception (cfg : PyVal) (ge tok content : String)
    (evs : List ResponseEvent) (errs : List String) (frags : List String)
    (hge : getTemplate cfg "general_error" = .ok ge)
    (hne : pyStrip (pyReplace content tok "") ≠ "")
    (hfl : flattenEvents evs = .ok frags) :
    (handleMention cfg tok content (.failed evs errs)).replies
      = List.replicate errs.length ge := by
  simp [handleMention, hne, hfl, faultBoundary_ok cfg ge hge]

/-- Witness for C2 at a two-exception group under the full
configuration. -/
theorem c2_witness :
    getTemplate cfgFull "general_error" = .ok "GEN_ERR"
    ∧ pyStrip (pyReplace "<@1> hi" "<@1>" "") ≠ ""
    ∧ flattenEvents [] = .ok []
    ∧ (handleMention cfgFull "<@1>" "<@1> hi" (.failed [] ["errA", "errB"])).replies
        = List.replicate 2 "GEN_ERR" := by
  refine ⟨by rfl, by decide, by rfl, ?_⟩
  exact c2_one_reply_per_exception cfgFull "GEN_ERR" "<@1>" "<@1> hi" [] ["errA", "errB"]
    [] (by rfl) (by decide) (by rfl)

/-- Claim C3, counterexample: a handling attempt in which a two-exception
group reaches the fault boundary sends two outbound replies, refuting
that every mention-triggering message produces exactly one reply under
all branches. -/
theorem c3_counterexample :
    (handleMention cfgFull "<@1>" "<@1> yo" (.failed [] ["errC", "errD"])).replies.length
      ≠ 1 := by
  decide

/-- Claim C3 as amended: with all four templates present, every
mention-triggering message produces exactly one outbound reply under the
empty-prompt, oversized, empty-response and success branches, and under
any failure whose exception group holds a single exception; a group of
`k` exceptions instead produces `k` replies. -/
theorem c3_exactly_one_reply (cfg : PyVal) (em lw er ge tok content : String)
    (stream : QueryStream)
    (hem : getTemplate cfg "empty_message" = .ok em)
    (hlw : getTemplate cfg "long_response_warning" = .ok lw)
    (her : getTemplate cfg "empty_response" = .ok er)
    (hge : getTemplate cfg "general_error" = .ok ge)
    (hsf : singleFault stream) :
    (handleMention cfg tok content stream).replies.length = 1 := by
  unfold handleMention
  by_cases hempty : pyStrip (pyReplace content tok "") = ""
  · simp [hempty, hem]
  · cases stream with
    | done evs =>
      rcases hfl : flattenEvents evs with e | frags
      · simp [hempty, hfl, faultBoundary_ok cfg ge hge]
      · by_cases hlong : pyJoinList frags ≠ "" ∧ (pyJoinList frags).length > 4000
        · simp [hempty, hfl, hlong, hlw]
        · by_cases hzero : (pyJoinList frags).length = 0
          · simp [hempty, hfl, hlong, hzero, her]
          · simp [hempty, hfl, hlong, hzero]
    | failed evs errs =>
      rcases hfl : flattenEvents evs with e | frags
      · simp [hempty, hfl, faultBoundary_ok cfg ge hge]
      · have herrs : errs.length = 1 := hsf
        simp [hempty, hfl, faultBoundary_ok cfg ge hge, herrs]

/-- Witness for C3 at a plain successful query under the full
configuration. -/
theorem c3_witness :
    getTemplate cfgFull "empty_message" = .ok "EMPTY_MSG"
    ∧ getTemplate cfgFull "long_response_warning" = .ok "LONG_WARN"
    ∧ getTemplate cfgFull "empty_response" = .ok "EMPTY_RESP"
    ∧ getTemplate cfgFull "general_error" = .ok "GEN_ERR"
    ∧ singleFault (.done [.assistantMsg [.text "hello"]])
    ∧ (handleMention cfgFull "<@1>" "<@1> hi"
        (.done [.assistantMsg [.text "hello"]])).replies.length = 1 := by
  refine ⟨by rfl, by rfl, by rfl, by rfl, trivial, ?_⟩
  exact c3_exactly_one_reply cfgFull "EMPTY_MSG" "LONG_WARN" "EMPTY_RESP" "GEN_ERR"
    "<@1>" "<@1> hi" (.done [.assistantMsg [.text "hello"]])
    (by rfl) (by rfl) (by rfl) (by rfl) trivial

/-- Claim C5, counterexample: `main` performs no template validation — a
configuration lacking the whole `messages` section (hence all four
templates) passes every startup check and the bot runs, refuting that
template absence is a startup-time failure. -/
theorem c5_counterexample :
    mainStartup (some cfgNoMsgs) = .runsBot cfgNoMsgs
    ∧ dictGet cfgNoMsgs "messages" = .error "KeyError: messages" := by
  exact ⟨rfl, rfl⟩

/-- Claim C5 as amended: the templates are not checked at startup — a
configuration with no templates still starts the bot, and the absence is
first detected during the handling of an individual message, where the
raising template lookup reaches (and also escapes) the fault boundary
with no reply sent. -/
theorem c5_templates_checked_per_message :
    mainStartup (some cfgNoMsgs) = .runsBot cfgNoMsgs
    ∧ getTemplate cfgNoMsgs "empty_message" = .error "KeyError: messages"
    ∧ handleMention cfgNoMsgs "<@1>" "<@1>" (.done [])
        = ⟨[], false, true⟩ := by
  exact ⟨rfl, rfl, rfl⟩

/-- Claim C9: when the backend raises mid-stream after events carrying at
least one text fragment were emitted, the single outbound reply is
exactly the `general_error` template — the accumulated fragments are
discarded and never sent. -/
theorem c9_midstream_failure_discards_partial (cfg : PyVal)
    (ge tok content err : String)
    (evs : List ResponseEvent) (frags : List String)
    (hge : getTemplate cfg "general_error" = .ok ge)
    (hne : pyStrip (pyReplace content tok "") ≠ "")
    (hfl : flattenEvents evs = .ok frags)
    (_hfrag : frags ≠ []) :
    (handleMention cfg tok content (.failed evs [err])).replies = [ge] := by
  simp [handleMention, hne, hfl, faultBoundary_ok cfg ge hge, List.replicate]

/-- Witness for C9: one text fragment "partial" emitted before the
failure; the only reply is the `general_error` template. -/
theorem c9_witness :
    getTemplate cfgFull "general_error" = .ok "GEN_ERR"
    ∧ pyStrip (pyReplace "<@1> hi" "<@1>" "") ≠ ""
    ∧ flattenEvents [.assistantMsg [.text "partial"]] = .ok ["partial"]
    ∧ ["partial"] ≠ ([] : List String)
    ∧ (handleMention cfgFull "<@1>" "<@1> hi"
        (.failed [.assistantMsg [.text "partial"]] ["boom"])).replies = ["GEN_ERR"] := by
  refine ⟨by rfl, by decide, by rfl, by decide, ?_⟩
  exact c9_midstream_failure_discards_partial cfgFull "GEN_ERR" "<@1>" "<@1> hi" "boom"
    [.assistantMsg [.text "partial"]] ["partial"] (by rfl) (by decide) (by rfl) (by decide)

/-- Claim C10: flattening a `Bash` tool-use block whose input lacks the
`command` key raises (the lookup is unguarded), so handling such a stream
takes the fault-boundary path and the single outbound reply is the
`general_error` template, not a rendered fragment sequence. -/
theorem c10_bash_missing_command (cfg : PyVal) (ge tok content : String)
    (input : List (String × String))
    (hge : getTemplate cfg "general_error" = .ok ge)
    (hne : pyStrip (pyReplace content tok "") ≠ "")
    (hcmd : input.lookup "command" = none) :
    flattenBlock (.toolUse "Bash" input) = .error "KeyError: command"
    ∧ (handleMention cfg tok content
        (.done [.assistantMsg [.toolUse "Bash" input]])).replies = [ge] := by
  have hblock : flattenBlock (.toolUse "Bash" input) = .error "KeyError: command" := by
    simp [flattenBlock, hcmd]
  refine ⟨hblock, ?_⟩
  have hfl : flattenEvents [.assistantMsg [.toolUse "Bash" input]]
      = .error "KeyError: command" := by
    simp only [flattenEvents, flattenBlocks, hblock]
    rfl
  simp [handleMention, hne, hfl, faultBoundary_ok cfg ge hge, List.replicate]

/-- Witness for C10: a `Bash` tool-use whose input carries only a
description. -/
theorem c10_witness :
    getTemplate cfgFull "general_error" = .ok "GEN_ERR"
    ∧ pyStrip (pyReplace "<@1> go" "<@1>" "") ≠ ""
    ∧ List.lookup "command" [("description", "x")] = none
    ∧ (handleMention cfgFull "<@1>" "<@1> go"
        (.done [.assistantMsg [.toolUse "Bash" [("description", "x")]]])).replies
        = ["GEN_ERR"] := by
  refine ⟨by rfl, by decide, by decide, ?_⟩
  exact (c10_bash_missing_command cfgFull "GEN_ERR" "<@1>" "<@1> go"
    [("description", "x")] (by rfl) (by decide) (by decide)).2

end Spec2Proof
